import Mathlib

/-!
Shallow embedding of `torch-audio-training-utils` (src/loading.py and
src/AudioDataset.py) and verification of its specification claims.

Samples are modelled as rationals, tensors as 1-D or 2-D sample buffers,
and Python exceptions as an explicit error type threaded through `Except`.
External collaborators (`torchaudio.load`, `torchaudio.functional.resample`)
are parameters of the embedded functions.
-/

/-- Python exceptions that the embedded code can raise. -/
inductive PyErr where
  /-- a `raise Exception(msg)` statement -/
  | exn (msg : String)
  /-- `TypeError`, e.g. `len()` of a number, or calling a non-callable -/
  | typeErr (msg : String)
  /-- `IndexError` from list indexing out of range -/
  | indexErr
  /-- `AttributeError` from looking up an attribute an object does not have -/
  | attrErr (name : String)
  /-- `UnboundLocalError`: reading a local variable that was never assigned -/
  | unboundLocal (name : String)
deriving DecidableEq, Repr

/-- An audio buffer: torchaudio tensors here are 1-D (samples) or
2-D (channels x samples). -/
inductive Tensor where
  | oneD (samples : List ℚ)
  | twoD (rows : List (List ℚ))
deriving DecidableEq, Repr

/-- `len(waveform.shape)`: the number of tensor dimensions. -/
def Tensor.dim : Tensor → ℕ
  | .oneD _ => 1
  | .twoD _ => 2

/-- Mean of column `j` of a 2-D buffer (over all rows/channels). -/
def colMean (rows : List (List ℚ)) (j : ℕ) : ℚ :=
  (rows.map (fun r => r.getD j 0)).sum / (rows.length : ℚ)

/-- `waveform.mean(dim=0)`: averages a channels x samples buffer across
channels, yielding a 1-D buffer. (In the code it is only applied under a
`len(waveform.shape) > 1` guard, so the 1-D case is never reached.) -/
def Tensor.meanDim0 : Tensor → Tensor
  | .oneD s => .oneD s
  | .twoD rows => .oneD ((List.range (rows.headD []).length).map (colMean rows))

/-- Looks up the (already wrap-adjusted) index `j` in `l`: raises
`IndexError` when `j` is still negative or at least `len(l)`. -/
def pyGetAux {α : Type} (l : List α) (j : ℤ) : Except PyErr α :=
  if j < 0 then .error .indexErr
  else
    match l.get? j.toNat with
    | some a => .ok a
    | none => .error .indexErr

/-- CPython list indexing `l[i]` for an `int` index: negative indices count
from the end; anything outside `[-len(l), len(l))` raises `IndexError`. -/
def pyGet {α : Type} (l : List α) (i : ℤ) : Except PyErr α :=
  pyGetAux l (if i < 0 then i + l.length else i)

/-- `torch.zeros(length)` as a 1-D buffer. -/
def pyZeros (n : ℕ) : List ℚ := List.replicate n 0

/-- Embedding of lines 40-51 of src/loading.py, the trim-or-pad computation
of `enforce_length` for a 1-D waveform and target length
`length = sample_rate * enforce_length_s`:
`if len(waveform) == length: return waveform`,
`elif len(waveform) > length: return waveform[0:length]`,
`elif len(waveform) < length: tmp = zeros(length); tmp[0:len(waveform)] = waveform; return tmp`.
In the last branch `len(waveform) < length`, so the slice assignment writes
the whole waveform over the first `len(waveform)` zeros of `tmp`. -/
def enforceStep (waveform : List ℚ) (length : ℕ) : List ℚ :=
  if waveform.length = length then waveform
  else if waveform.length > length then waveform.take length
  else waveform ++ (pyZeros length).drop waveform.length

/-- Embedding of `enforce_length` in src/loading.py (as a function of a
tensor waveform and an int-or-float `enforce_length_s`).  After the
`isinstance` check (always satisfied for a tensor argument) and the
emptiness check, line 35 evaluates `len(enforce_length_s)`; `len()` of an
`int` or `float` raises `TypeError`, so for every non-empty waveform the
function raises `TypeError` and the remaining validation (lines 36-38) and
the trim-or-pad computation (lines 40-51, embedded as `enforceStep`) are
unreachable. -/
def enforce_length (waveform : List ℚ) (sample_rate : ℤ) (enforce_length_s : ℚ) :
    Except PyErr (List ℚ) :=
  if waveform.length ≤ 0 then .error (.exn "Waveform is empty")
  else .error (.typeErr "object of type int or float has no len")

/-- The decode retry loop of `load_audio` (lines 91-96 of src/loading.py):
`for i in range(fuel): try: waveform, rate = load(source); break except: sleep(0.5)`
starting at attempt number `i`.  `attempt k` is the outcome of the k-th call
to `torchaudio.load` (`none` = the call raised).  Returns the result of the
first successful attempt, or `none` when every attempt raised, in which case
the loop finishes with the local `waveform` never assigned. -/
def decodeRetry (attempt : ℕ → Option (Tensor × ℤ)) : ℕ → ℕ → Option (Tensor × ℤ)
  | _, 0 => none
  | i, fuel + 1 =>
    match attempt i with
    | some wr => some wr
    | none => decodeRetry attempt (i + 1) fuel

/-- Embedding of `load_audio` in src/loading.py.  `attempt` is the decode
collaborator (`torchaudio.load` on the fixed source, per retry attempt) and
`rs` the resample collaborator.
* Decode: `for i in range(3)` retry loop; if every attempt raises, the local
  `waveform` is never assigned and the following `if waveform is None:` test
  raises `UnboundLocalError` (so the `raise Exception("File at source does
  not contain any data or does not exist")` inside it is unreachable — a
  successful `load` returns a tensor, which is never `None`).
* Resample: only if `sample_rate is not None` and the decoded rate differs.
* Mono: the guard is `mono is not None and len(waveform.shape) > 1`; for a
  Python bool argument `mono is not None` holds for `True` AND for `False`,
  so the downmix runs for every multi-channel waveform whenever `mono` is
  not literally `None`.
* Length: `if enforce_length_s is not None: waveform = enforce_length_s(waveform, rate)`
  calls the int-or-float `enforce_length_s` itself as a function, which
  raises `TypeError` (the module-level `enforce_length` is never called). -/
def load_audio (attempt : ℕ → Option (Tensor × ℤ)) (rs : Tensor → ℤ → ℤ → Tensor)
    (mono : Option Bool) (sample_rate : Option ℤ) (enforce_length_s : Option ℚ) :
    Except PyErr Tensor :=
  match decodeRetry attempt 0 3 with
  | none => .error (.unboundLocal "waveform")
  | some (w0, rate0) =>
    let w1 :=
      match sample_rate with
      | some sr => if rate0 ≠ sr then rs w0 rate0 sr else w0
      | none => w0
    let w2 := if mono.isSome ∧ w1.dim > 1 then w1.meanDim0 else w1
    match enforce_length_s with
    | some _ => .error (.typeErr "int or float object is not callable")
    | none => .ok w2

/-- The shape-polymorphic value `__getitem__` returns (§4.2 step 4 of the
spec): bare waveform, (waveform, label), (path, waveform), or
((path, waveform), label). -/
inductive SampleOut (α β : Type) where
  | wf (w : Tensor)
  | wfLabel (w : Tensor) (lab : β)
  | pathWf (p : α) (w : Tensor)
  | pathWfLabel (p : α) (w : Tensor) (lab : β)
deriving DecidableEq, Repr

/-- The fields of `AudioDataset` as set by `__init__` in
src/AudioDataset.py. `α` is the type of source identifiers (paths), `β`
of labels.  `to_mono` is `Option Bool` because the Python argument can be
`True`, `False` or `None`. -/
structure AudioDataset (α β : Type) where
  sources : List α
  labels : Option (List β)
  to_mono : Option Bool
  enforce_length_s : Option ℚ
  only_waveform : Bool
  sr : Option ℤ

/-- Embedding of `AudioDataset.__init__`: sets all attributes, then raises
`TypeError` when labels are given and `len(self._sources) != len(self._labels)`. -/
def AudioDataset.init {α β : Type} (paths : List α) (labels : Option (List β))
    (only_waveform : Bool) (mono : Option Bool) (sample_rate : Option ℤ)
    (enforce_length_s : Option ℚ) : Except PyErr (AudioDataset α β) :=
  let ds : AudioDataset α β :=
    ⟨paths, labels, mono, enforce_length_s, only_waveform, sample_rate⟩
  match labels with
  | some ls =>
    if paths.length ≠ ls.length then
      .error (.typeErr "Expected paths and labels to have save dimensions")
    else .ok ds
  | none => .ok ds

/-- `AudioDataset.__len__`: the length of the source list. -/
def AudioDataset.len {α β : Type} (ds : AudioDataset α β) : ℕ :=
  ds.sources.length

/-- The attribute lookup `self.load_audio` performed by the fallback loop of
`__getitem__`: `AudioDataset` defines no attribute `load_audio` (the loader
is a module-level function imported from `.loading`, not a method, and the
`Dataset` base class does not provide one), so the lookup raises
`AttributeError` before any argument is evaluated. -/
def selfLoadAudio : Except PyErr Tensor := .error (.attrErr "load_audio")

/-- The fallback loop of `__getitem__` (lines 128-136 of src/AudioDataset.py):
`for i in randperm(len(self)).tolist(): try: waveform = self.load_audio(...); idx = i; break except: ...`.
`wf` is the state of the local `waveform` (`none` = still unassigned) and
`idx` the current index variable; on a successful candidate the loop breaks
with `waveform` assigned and `idx` replaced, and a raising candidate is
caught and skipped. -/
def fallbackLoop (perm : List ℕ) (wf : Option Tensor) (idx : ℤ) :
    Option Tensor × ℤ :=
  match perm with
  | [] => (wf, idx)
  | i :: rest =>
    match selfLoadAudio with
    | .ok w => (some w, (i : ℤ))
    | .error _ => fallbackLoop rest wf idx

/-- The return-shaping tail of `__getitem__` (lines 141-150), reached with
the local `waveform` bound to tensor `w` (a tensor is never Python `None`,
so the `if waveform is None: raise Exception("All paths are invalid")`
branch is skipped) and index variable `idx`.  Each `self._sources[idx]` /
`self._labels[idx]` subscript is re-evaluated here and may itself raise. -/
def shapeReturn {α β : Type} (ds : AudioDataset α β) (w : Tensor) (idx : ℤ) :
    Except PyErr (SampleOut α β) :=
  if ds.only_waveform then
    match ds.labels with
    | none => .ok (.wf w)
    | some ls =>
      match pyGet ls idx with
      | .ok lab => .ok (.wfLabel w lab)
      | .error e => .error e
  else
    match pyGet ds.sources idx with
    | .error e => .error e
    | .ok p =>
      match ds.labels with
      | none => .ok (.pathWf p w)
      | some ls =>
        match pyGet ls idx with
        | .ok lab => .ok (.pathWfLabel p w lab)
        | .error e => .error e

/-- Embedding of `AudioDataset.__getitem__`.  `la` is the outcome of
`load_audio(self._sources[i], mono=..., sample_rate=..., enforce_length_s=...)`
per source, and `perm` the list produced by `randperm(len(self)).tolist()`.
Control flow of lines 117-150:
* try: `load_audio(self._sources[idx], ...)` — both an `IndexError` from the
  subscript and a loader failure are caught by `except Exception`;
* the except handler first prints `self._sources[idx]`, re-evaluating the
  subscript: for an out-of-range `idx` this raises `IndexError` again,
  this time uncaught, so it escapes the call;
* otherwise the handler runs the fallback loop (`fallbackLoop`);
* after the try/except, `if waveform is None:` raises `UnboundLocalError`
  when `waveform` was never assigned; otherwise the result is shaped by
  `shapeReturn`. -/
def getitem {α β : Type} (ds : AudioDataset α β) (la : α → Except PyErr Tensor)
    (perm : List ℕ) (idx : ℤ) : Except PyErr (SampleOut α β) :=
  let tryRes : Except PyErr Tensor :=
    match pyGet ds.sources idx with
    | .error e => .error e
    | .ok s => la s
  match tryRes with
  | .ok w => shapeReturn ds w idx
  | .error _ =>
    match pyGet ds.sources idx with
    | .error e => .error e
    | .ok _ =>
      match fallbackLoop perm none idx with
      | (none, _) => .error (.unboundLocal "waveform")
      | (some w, idx') => shapeReturn ds w idx'

/-- A three-source provider matching the substitution scenario of the spec:
`sources = [valid_A, corrupt_B, valid_C]`, no labels, `only_waveform =
False`, `mono = True`, no resampling, no length enforcement. -/
def demoDS : AudioDataset String Unit :=
  ⟨["valid_A", "corrupt_B", "valid_C"], none, some true, none, false, none⟩

/-- Per-source loader outcome for the substitution scenario: only
`corrupt_B` fails to load. -/
def demoLoader : String → Except PyErr Tensor :=
  fun s => if s = "corrupt_B" then .error (.exn "decode failed") else .ok (.oneD [1])

/-- A provider whose every source is corrupt (exhaustion scenario). -/
def corruptDS : AudioDataset String Unit :=
  ⟨["bad_A", "bad_B"], none, some true, none, false, none⟩

/-- Loader outcome for the exhaustion scenario: every source fails. -/
def corruptLoader : String → Except PyErr Tensor :=
  fun _ => .error (.exn "decode failed")

/-- Helper: the trim-or-pad computation always yields a buffer of exactly
the target length. -/
theorem enforceStep_length (w : List ℚ) (T : ℕ) : (enforceStep w T).length = T := by
  unfold enforceStep
  split
  · assumption
  · split
    · simp only [List.length_take]
      omega
    · simp only [List.length_append, pyZeros, List.length_drop,
        List.length_replicate]
      omega

/-- Helper: a buffer that already has the target length passes through the
trim-or-pad computation unchanged. -/
theorem enforceStep_of_length_eq (w : List ℚ) (T : ℕ) (h : w.length = T) :
    enforceStep w T = w := by
  unfold enforceStep
  rw [if_pos h]

/-- Helper: the fallback loop of `__getitem__` never assigns `waveform`,
whatever the permutation: every candidate evaluates `self.load_audio`,
which raises `AttributeError` and is caught. -/
theorem fallbackLoop_never_assigns (perm : List ℕ) (wf : Option Tensor) (idx : ℤ) :
    fallbackLoop perm wf idx = (wf, idx) := by
  induction perm with
  | nil => rfl
  | cons i rest ih => simpa [fallbackLoop, selfLoadAudio] using ih

/-- C4: for a non-empty waveform of length L, positive sample rate and
positive enforce-length duration with target length T = sample_rate *
enforce_length_s, the trim-or-pad step of `enforce_length` (lines 40-51 of
src/loading.py) returns the input unchanged when L = T, exactly the first T
samples when L > T, and the input followed by exactly T - L zero samples
when L < T. -/
theorem enforceStep_correct (w : List ℚ) (sr el : ℕ)
    (hw : w ≠ []) (hsr : 0 < sr) (hel : 0 < el) :
    (w.length = sr * el → enforceStep w (sr * el) = w) ∧
    (w.length > sr * el → enforceStep w (sr * el) = w.take (sr * el)) ∧
    (w.length < sr * el →
      enforceStep w (sr * el) = w ++ List.replicate (sr * el - w.length) 0) := by
  refine ⟨fun h => ?_, fun h => ?_, fun h => ?_⟩ <;> unfold enforceStep
  · rw [if_pos h]
  · rw [if_neg (by omega), if_pos h]
  · rw [if_neg (by omega), if_neg (by omega)]
    simp [pyZeros]

/-- Witness for C4: a 1-sample waveform padded to target length 2 * 3. -/
theorem enforceStep_correct_witness :
    enforceStep [(1 : ℚ)] (2 * 3) =
      [(1 : ℚ)] ++ List.replicate (2 * 3 - [(1 : ℚ)].length) 0 :=
  (enforceStep_correct [(1 : ℚ)] 2 3 (by decide) (by decide) (by decide)).2.2
    (by decide)

/-- C9: the trim-or-pad step is idempotent — applying it twice with the same
target length yields the same result as applying it once, for every
waveform, sample rate and duration satisfying the validation preconditions. -/
theorem enforceStep_idempotent (w : List ℚ) (sr el : ℕ)
    (hw : w ≠ []) (hsr : 0 < sr) (hel : 0 < el) :
    enforceStep (enforceStep w (sr * el)) (sr * el) = enforceStep w (sr * el) :=
  enforceStep_of_length_eq _ _ (enforceStep_length w (sr * el))

/-- Witness for C9 at a concrete waveform and target length. -/
theorem enforceStep_idempotent_witness :
    enforceStep (enforceStep [(1 : ℚ), 2, 3] (2 * 1)) (2 * 1) =
      enforceStep [(1 : ℚ), 2, 3] (2 * 1) :=
  enforceStep_idempotent [(1 : ℚ), 2, 3] 2 1 (by decide) (by decide) (by decide)

/-- C5 (failing evaluation): for every non-empty waveform and positive
sample rate and duration — inputs satisfying all three validation
preconditions of the claim — `enforce_length` still raises: line 35
evaluates `len(enforce_length_s)` on an int or float, a `TypeError`, so
the function never returns successfully and never reaches the intended
`enforce_length_s <= 0` / `sample_rate <= 0` checks. -/
theorem enforce_length_validation_bug (w : List ℚ) (sample_rate : ℤ) (el : ℚ)
    (hw : w ≠ []) (hsr : 0 < sample_rate) (hel : 0 < el) :
    enforce_length w sample_rate el =
      .error (.typeErr "object of type int or float has no len") := by
  unfold enforce_length
  rw [if_neg]
  simpa using hw

/-- Witness for C5 at a concrete valid input. -/
theorem enforce_length_validation_bug_witness :
    enforce_length [(1 : ℚ)] 16000 2 =
      .error (.typeErr "object of type int or float has no len") :=
  enforce_length_validation_bug [(1 : ℚ)] 16000 2 (by decide) (by decide)
    (by decide)

/-- C3 (failing evaluation): for a source that decodes successfully (4
samples at rate 4) with target sample rate 4 and enforce-length 1 second,
the claim expects a returned waveform of exactly 4 * 1 samples; instead
`load_audio` raises `TypeError`, because line 115 evaluates
`enforce_length_s(waveform, rate)` — calling the int-or-float parameter as
a function. -/
theorem load_audio_enforce_length_call_bug :
    load_audio (fun _ => some (.oneD [1, 2, 3, 4], 4)) (fun w _ _ => w)
      (some true) (some 4) (some 1) =
      .error (.typeErr "int or float object is not callable") := rfl

/-- C6 (failing evaluation): with `mono = False` and a 2-channel decoded
waveform `[[1, 1], [0, 0]]` (no resampling, no length enforcement), the
claim expects the channel structure preserved; instead `load_audio`
downmixes to the single-channel mean `[1/2, 1/2]`, because the guard on
line 110 tests `mono is not None`, which is true for `False`. -/
theorem load_audio_mono_false_downmixes :
    load_audio (fun _ => some (.twoD [[1, 1], [0, 0]], 16000)) (fun w _ _ => w)
      (some false) none none = .ok (.oneD [1/2, 1/2]) ∧
    Tensor.dim (.oneD [1/2, 1/2]) ≠ Tensor.dim (.twoD [[1, 1], [0, 0]]) :=
  ⟨by norm_num [load_audio, decodeRetry, Tensor.meanDim0, Tensor.dim, colMean,
      List.range_succ], by decide⟩

/-- C7 (failing evaluation): when all 3 decode attempts raise, the claim
expects a DecodeError ("File at source does not contain any data or does
not exist"); instead the local `waveform` is never assigned, so the test
`if waveform is None:` itself raises `UnboundLocalError` and the intended
raise is unreachable. -/
theorem load_audio_retry_exhaustion_bug :
    load_audio (fun _ => none) (fun w _ _ => w) (some true) none none =
      .error (.unboundLocal "waveform") ∧
    PyErr.unboundLocal "waveform" ≠
      .exn "File at source does not contain any data or does not exist" :=
  ⟨rfl, by decide⟩

/-- C8: constructing an `AudioDataset` fails (with the dimension-mismatch
`TypeError`) if and only if labels are provided and their length differs
from the length of the source list; with no labels, or with matching
lengths, construction succeeds. -/
theorem audioDataset_init_dimension_check {α β : Type} (paths : List α)
    (labels : Option (List β)) (ow : Bool) (mono : Option Bool)
    (sr : Option ℤ) (el : Option ℚ) :
    (AudioDataset.init paths labels ow mono sr el =
        .error (.typeErr "Expected paths and labels to have save dimensions") ↔
      ∃ ls, labels = some ls ∧ ls.length ≠ paths.length) ∧
    ((∃ ds, AudioDataset.init paths labels ow mono sr el = .ok ds) ↔
      ∀ ls, labels = some ls → ls.length = paths.length) := by
  unfold AudioDataset.init
  cases labels with
  | none => simp
  | some ls =>
    by_cases h : paths.length = ls.length
    · simp [h]
    · simp [h, Ne.symm h]

/-- C1 (failing evaluation): in the spec substitution scenario — sources
`[valid_A, corrupt_B, valid_C]`, request index 1 (the corrupt one) — the
claim expects a record built from a successfully loading candidate; instead,
whatever random permutation is drawn, every fallback candidate evaluates
`self.load_audio` (an attribute `AudioDataset` does not define), raises
`AttributeError` and is skipped, so the local `waveform` is never assigned
and `__getitem__` raises `UnboundLocalError`. -/
theorem getitem_substitution_bug (perm : List ℕ) :
    getitem demoDS demoLoader perm 1 = .error (.unboundLocal "waveform") := by
  have h := fallbackLoop_never_assigns perm (none : Option Tensor) 1
  simp [getitem, demoDS, demoLoader, pyGet, pyGetAux, h]

/-- C2 (failing evaluation): with every source corrupt, the claim expects
the exhaustion error ("All paths are invalid" in the code, ExhaustionError
in the spec); instead, for every permutation, `__getitem__` raises
`UnboundLocalError` at the `if waveform is None:` test — the local was
never assigned, so the `raise Exception("All paths are invalid")` line is
unreachable. -/
theorem getitem_exhaustion_bug (perm : List ℕ) :
    getitem corruptDS corruptLoader perm 0 = .error (.unboundLocal "waveform") ∧
    PyErr.unboundLocal "waveform" ≠ .exn "All paths are invalid" := by
  refine ⟨?_, by decide⟩
  have h := fallbackLoop_never_assigns perm (none : Option Tensor) 0
  simp [getitem, corruptDS, corruptLoader, pyGet, pyGetAux, h]

/-- C10 (counterexample): requesting index 3 on the 3-source provider —
`index = length()` — makes `get` fail with `IndexError`, contradicting the
claim that an out-of-range index is treated like a load failure and
triggers the substitution path. -/
theorem getitem_oob_counterexample :
    getitem demoDS demoLoader [0, 1, 2] 3 = .error .indexErr := rfl

/-- C10 (amended): for every index outside `[-length(), length())`, the
out-of-range subscript inside the try block is caught, but the except
handler itself re-evaluates `self._sources[idx]` while printing, and that
second subscript raises an uncaught `IndexError`, so `get` fails with an
index-out-of-range error before the substitution loop is reached. -/
theorem getitem_out_of_range_index_error {α β : Type} (ds : AudioDataset α β)
    (la : α → Except PyErr Tensor) (perm : List ℕ) (idx : ℤ)
    (h : idx < -(ds.sources.length : ℤ) ∨ (ds.sources.length : ℤ) ≤ idx) :
    getitem ds la perm idx = .error .indexErr := by
  have hpg : pyGet ds.sources idx = .error .indexErr := by
    unfold pyGet pyGetAux
    rcases h with h | h
    · rw [if_pos (show idx < 0 by omega), if_pos (by omega)]
    · rw [if_neg (show ¬ idx < 0 by omega), if_neg (show ¬ (idx : ℤ) < 0 by omega),
        List.get?_eq_none.mpr (by omega)]
  simp [getitem, hpg]

/-- Witness for the amended C10, at a concrete negative out-of-range index. -/
theorem getitem_out_of_range_index_error_witness :
    getitem demoDS demoLoader [] (-5) = .error .indexErr :=
  getitem_out_of_range_index_error demoDS demoLoader [] (-5) (Or.inl (by decide))
